import Mathlib

/-!
Shallow embedding of `src/services/AIService.ts`: a multi-provider
chat-completion client with a fixed provider cascade, per-provider
retry with exponential backoff, and two wire dialects
(OpenAI-compatible chat and Gemini-native generateContent).

The network is modelled as an environment `Env` mapping a provider, the
attempt index for that provider, and the outgoing request to a fetch
outcome.  JavaScript values reachable in the parsing code are modelled
by the inductive `Json` (with a distinguished `undefined` for JS
`undefined`), and property/index access follows JS semantics: access on
`null`/`undefined` throws, access on other non-objects yields
`undefined`.
-/

namespace AIService

/-- Provider identifiers, the keys of `ApiKeys` in the source. -/
inductive Provider where
  | cerebras
  | gemini
  | deepseek
  | openrouter
  | mistral
  | together
  | groq
deriving DecidableEq

/-- The credential map supplied at construction (`ApiKeys` interface). -/
structure ApiKeys where
  cerebras : String
  gemini : String
  deepseek : String
  openrouter : String
  mistral : String
  together : String
  groq : String

/-- `this.apiKeys[provider]` lookup. -/
def ApiKeys.get (k : ApiKeys) : Provider → String
  | .cerebras => k.cerebras
  | .gemini => k.gemini
  | .deepseek => k.deepseek
  | .openrouter => k.openrouter
  | .mistral => k.mistral
  | .together => k.together
  | .groq => k.groq

/-- Message roles (`'user' | 'assistant' | 'system'`). -/
inductive Role where
  | user
  | assistant
  | system
deriving DecidableEq

/-- The wire string of a role. -/
def roleString : Role → String
  | .user => "user"
  | .assistant => "assistant"
  | .system => "system"

/-- `ChatMessage` interface. -/
structure ChatMessage where
  role : Role
  content : String

/-- The two request/response dialects (`config.type` in the source). -/
inductive ProviderType where
  | openaiCompatible
  | geminiNative
deriving DecidableEq

/-- One entry of `PROVIDER_CONFIG` (gemini has no `model` field). -/
structure ProviderConfig where
  baseURL : String
  endpoint : String
  model : Option String
  type : ProviderType

/-- The static `PROVIDER_CONFIG` table, verbatim from the source. -/
def PROVIDER_CONFIG : Provider → ProviderConfig
  | .cerebras =>
    ⟨"https://api.cerebras.ai/v1", "/chat/completions",
     some "llama-3.1-70b-chat", .openaiCompatible⟩
  | .gemini =>
    ⟨"https://generativelanguage.googleapis.com/v1beta",
     "/models/gemini-2.5-flash-lite:generateContent", none, .geminiNative⟩
  | .deepseek =>
    ⟨"https://api.deepseek.com/v1", "/chat/completions",
     some "deepseek-r1-0528", .openaiCompatible⟩
  | .openrouter =>
    ⟨"https://openrouter.ai/api/v1", "/chat/completions",
     some "deepseek/deepseek-r1", .openaiCompatible⟩
  | .mistral =>
    ⟨"https://api.mistral.ai/v1", "/chat/completions",
     some "mistral-large-3", .openaiCompatible⟩
  | .together =>
    ⟨"https://api.together.xyz/v1", "/chat/completions",
     some "meta-llama/Llama-3.1-70b-instruct", .openaiCompatible⟩
  | .groq =>
    ⟨"https://api.groq.com/openai/v1", "/chat/completions",
     some "llama-3.1-70b-versatile", .openaiCompatible⟩

/-- The name used in log and error messages for a provider. -/
def providerName : Provider → String
  | .cerebras => "cerebras"
  | .gemini => "gemini"
  | .deepseek => "deepseek"
  | .openrouter => "openrouter"
  | .mistral => "mistral"
  | .together => "together"
  | .groq => "groq"

/-- `PROVIDER_CASCADE_ORDER`, verbatim from the source. -/
def PROVIDER_CASCADE_ORDER : List Provider :=
  [.cerebras, .gemini, .deepseek, .openrouter, .mistral, .together, .groq]

def MAX_RETRIES : Nat := 3

def INITIAL_BACKOFF_MS : Nat := 2000

/-- JavaScript values reachable in the client: JSON values plus the
distinguished `undefined`.  Numbers are modelled as rationals (covers the
integer caps and the literal temperature 0.7). -/
inductive Json where
  | undefined
  | null
  | bool (b : Bool)
  | num (q : ℚ)
  | str (s : String)
  | arr (elems : List Json)
  | obj (fields : List (String × Json))

/-- JS truthiness of a value. -/
def Json.truthy : Json → Bool
  | .undefined => false
  | .null => false
  | .bool b => b
  | .num q => q != 0
  | .str s => s != ""
  | .arr _ => true
  | .obj _ => true

/-- Whether a JS value is `null` or `undefined` (the values on which a
property access throws and on which `?.` short-circuits). -/
def Json.nullish : Json → Bool
  | .undefined => true
  | .null => true
  | _ => false

/-- JS property access `v.k`: throws (`.error`) on `null`/`undefined`,
yields the field of an object (or `undefined` when absent), and yields
`undefined` on any other non-object value. -/
def Json.getProp : Json → String → Except Unit Json
  | .undefined, _ => .error ()
  | .null, _ => .error ()
  | .obj fields, k => .ok ((fields.lookup k).getD .undefined)
  | _, _ => .ok .undefined

/-- JS index access `v[i]`: throws on `null`/`undefined`, indexes arrays
(out of range gives `undefined`), indexes strings character-wise, and
yields `undefined` on other values. -/
def Json.getIndex : Json → Nat → Except Unit Json
  | .undefined, _ => .error ()
  | .null, _ => .error ()
  | .arr xs, i => .ok (xs.getD i .undefined)
  | .str s, i =>
    .ok (match s.toList[i]? with
         | some c => .str c.toString
         | none => .undefined)
  | _, _ => .ok .undefined

/-- `response.choices[0]?.message?.content || ''` with JS optional-chain
semantics; `.error` marks a thrown TypeError. -/
def parseOpenAI (response : Json) : Except Unit Json := do
  let choices ← response.getProp "choices"
  let c0 ← choices.getIndex 0
  if c0.nullish then
    pure (Json.str "")
  else
    let msg ← c0.getProp "message"
    if msg.nullish then
      pure (Json.str "")
    else
      let content ← msg.getProp "content"
      pure (if content.truthy then content else Json.str "")

/-- `response.candidates[0]?.content?.parts[0]?.text || ''` with JS
optional-chain semantics: note that `parts[0]` is NOT guarded by `?.`,
so a present `content` without `parts` throws. -/
def parseGemini (response : Json) : Except Unit Json := do
  let candidates ← response.getProp "candidates"
  let c0 ← candidates.getIndex 0
  if c0.nullish then
    pure (Json.str "")
  else
    let content ← c0.getProp "content"
    if content.nullish then
      pure (Json.str "")
    else
      let parts ← content.getProp "parts"
      let p0 ← parts.getIndex 0
      if p0.nullish then
        pure (Json.str "")
      else
        let text ← p0.getProp "text"
        pure (if text.truthy then text else Json.str "")

/-- The message of the error thrown by `parseResponse`'s catch block. -/
def parseErrorMessage (provider : Provider) : String :=
  "Could not parse a valid response from " ++ providerName provider ++ "."

/-- `AIService.parseResponse`: dispatch on the provider dialect; a thrown
TypeError inside the `try` is replaced by a parsing error naming the
provider. -/
def parseResponse (provider : Provider) (response : Json) : Except String Json :=
  match (PROVIDER_CONFIG provider).type with
  | .openaiCompatible =>
    match parseOpenAI response with
    | .ok v => .ok v
    | .error _ => .error (parseErrorMessage provider)
  | .geminiNative =>
    match parseGemini response with
    | .ok v => .ok v
    | .error _ => .error (parseErrorMessage provider)

/-- The outgoing HTTP request built by `makeApiCall` (method is always
POST, body always JSON). -/
structure Request where
  url : String
  headers : List (String × String)
  body : Json

/-- `AIService.makeApiCall`, request-construction part (lines 133-158):
URL, headers and body for one provider call. -/
def buildRequest (provider : Provider) (messages : List ChatMessage) (apiKey : String) :
    Request :=
  let config := PROVIDER_CONFIG provider
  let url := config.baseURL ++ config.endpoint ++
    (if config.type = .geminiNative then "?key=" ++ apiKey else "")
  match config.type with
  | .openaiCompatible =>
    { url := url
      headers := [("Content-Type", "application/json"),
                  ("Authorization", "Bearer " ++ apiKey)]
      body := Json.obj [
        ("model", Json.str (config.model.getD "")),
        ("messages", Json.arr (messages.map (fun m =>
          Json.obj [("role", Json.str (roleString m.role)),
                    ("content", Json.str m.content)]))),
        ("max_tokens", Json.num 32768),
        ("temperature", Json.num (7 / 10))] }
  | .geminiNative =>
    { url := url
      headers := [("Content-Type", "application/json")]
      body := Json.obj [
        ("contents", Json.arr (messages.map (fun m =>
          Json.obj [("role", Json.str (if m.role = .assistant then "model"
                                       else roleString m.role)),
                    ("parts", Json.arr [Json.obj [("text", Json.str m.content)]])]))),
        ("generationConfig", Json.obj [
          ("maxOutputTokens", Json.num 32768),
          ("temperature", Json.num (7 / 10))])] }

/-- Outcome of one `fetch` of a provider endpoint: an ok response whose
body parses to `body`, a non-ok HTTP response, or a rejection carrying
no HTTP status (network error, or a body that is not valid JSON). -/
inductive FetchResult where
  | ok (body : Json)
  | httpError (status : Nat) (text : String)
  | networkFailure (message : String)

/-- The external world: what the fetch of a given provider returns on
its n-th call within one `chat` invocation, given the outgoing request. -/
def Env := Provider → Nat → Request → FetchResult

/-- A thrown JS error as far as the client inspects it: its message and
its (possibly absent) `status` field. -/
structure JsError where
  message : String
  status : Option Nat
deriving DecidableEq

/-- `AIService.makeApiCall` (lines 132-174): build the request, perform
the fetch, throw an error carrying the status on a non-ok response,
otherwise return the parsed JSON body. -/
def makeApiCall (env : Env) (provider : Provider) (messages : List ChatMessage)
    (apiKey : String) (attempt : Nat) : Except JsError Json :=
  match env provider attempt (buildRequest provider messages apiKey) with
  | .ok body => .ok body
  | .httpError s t =>
    .error ⟨"API call to " ++ providerName provider ++ " failed with status " ++
            toString s ++ ": " ++ t, some s⟩
  | .networkFailure m => .error ⟨m, none⟩

/-- The retry classification on line 119:
`error.status === 429 || error.status >= 500` (false when the error has
no numeric status, as in JS where `undefined >= 500` is false). -/
def isRetryable (e : JsError) : Bool :=
  match e.status with
  | some s => s == 429 || 500 ≤ s
  | none => false

/-- The backoff delay computed on line 120:
`INITIAL_BACKOFF_MS * Math.pow(2, attempt) + Math.random() * 1000`,
with the random jitter supplied as an oracle `jitter`. -/
def delayFor (jitter : Nat → Nat) (attempt : Nat) : Nat :=
  INITIAL_BACKOFF_MS * 2 ^ attempt + jitter attempt

/-- Observable outcome of `tryProviderWithBackoff`: the returned body or
thrown error, the number of `makeApiCall` invocations made, and the
backoff delays slept, in order. -/
structure RetryOutcome where
  result : Except JsError Json
  calls : Nat
  sleeps : List Nat

/-- The retry loop of `tryProviderWithBackoff` (lines 113-129), with
`fuel = MAX_RETRIES - attempt` remaining loop iterations.  On a
retryable error the code always sleeps (also on the last iteration) and
continues; on a non-retryable error it rethrows at once; when the loop
ends it throws the last error. -/
def tryProviderGo (env : Env) (jitter : Nat → Nat) (provider : Provider)
    (messages : List ChatMessage) (apiKey : String) :
    Nat → Nat → Option JsError → RetryOutcome
  | 0, _, lastError => ⟨.error (lastError.getD ⟨"", none⟩), 0, []⟩
  | fuel + 1, attempt, _ =>
    match makeApiCall env provider messages apiKey attempt with
    | .ok body => ⟨.ok body, 1, []⟩
    | .error e =>
      if isRetryable e then
        let rest := tryProviderGo env jitter provider messages apiKey fuel
          (attempt + 1) (some e)
        ⟨rest.result, rest.calls + 1, delayFor jitter attempt :: rest.sleeps⟩
      else
        ⟨.error e, 1, []⟩

/-- `AIService.tryProviderWithBackoff` (lines 111-130). -/
def tryProviderWithBackoff (env : Env) (jitter : Nat → Nat) (provider : Provider)
    (messages : List ChatMessage) (apiKey : String) : RetryOutcome :=
  tryProviderGo env jitter provider messages apiKey MAX_RETRIES 0 none

/-- The successful return value of `chat`. -/
structure ChatSuccess where
  content : Json
  provider : Provider

/-- Observable outcome of `chat`: its return value or thrown error
message, together with, for every provider actually invoked (in cascade
order, up to the point `chat` returned), the number of HTTP calls made
to it. -/
structure ChatOutcome where
  result : Except String ChatSuccess
  callCounts : List (Provider × Nat)

/-- The aggregate error thrown on line 108 when the cascade is
exhausted. -/
def aggregateErrorMessage : String :=
  "All AI providers failed. Please check your API keys, network connection, and provider status."

/-- The loop body of `AIService.chat` (lines 90-106) over the remaining
cascade: skip a provider whose key is falsy (empty), otherwise run the
retry policy; on a returned truthy body parse it and return, and on a
thrown error, a falsy body, or a parse failure fall through to the next
provider. -/
def chatGo (env : Env) (jitter : Nat → Nat) (keys : ApiKeys)
    (messages : List ChatMessage) : List Provider → ChatOutcome
  | [] => ⟨.error aggregateErrorMessage, []⟩
  | p :: rest =>
    if keys.get p = "" then
      chatGo env jitter keys messages rest
    else
      match tryProviderWithBackoff env jitter p messages (keys.get p) with
      | ⟨.ok body, calls, _⟩ =>
        if body.truthy then
          match parseResponse p body with
          | .ok content => ⟨.ok ⟨content, p⟩, [(p, calls)]⟩
          | .error _ =>
            let r := chatGo env jitter keys messages rest
            ⟨r.result, (p, calls) :: r.callCounts⟩
        else
          let r := chatGo env jitter keys messages rest
          ⟨r.result, (p, calls) :: r.callCounts⟩
      | ⟨.error _, calls, _⟩ =>
        let r := chatGo env jitter keys messages rest
        ⟨r.result, (p, calls) :: r.callCounts⟩

/-- `AIService.chat` (lines 89-109). -/
def chat (env : Env) (jitter : Nat → Nat) (keys : ApiKeys)
    (messages : List ChatMessage) : ChatOutcome :=
  chatGo env jitter keys messages PROVIDER_CASCADE_ORDER

/-- Number of HTTP calls `chat` made to provider `q`. -/
def callsTo (o : ChatOutcome) (q : Provider) : Nat :=
  (o.callCounts.map (fun e => if e.1 = q then e.2 else 0)).sum

/-- Whether an `Except` is an error (used to state "the retry policy
failed" decidably). -/
def exceptIsError : Except ε α → Bool
  | .error _ => true
  | .ok _ => false

/-- The per-provider step of the `chat` loop, as a function: `some c`
when the provider would make `chat` return content `c` (non-empty key,
retry policy returns a truthy body, parsing succeeds), `none` when the
cascade moves past it. -/
def providerYields (env : Env) (jitter : Nat → Nat) (keys : ApiKeys)
    (messages : List ChatMessage) (p : Provider) : Option Json :=
  if keys.get p = "" then none
  else
    match tryProviderWithBackoff env jitter p messages (keys.get p) with
    | ⟨.ok body, _, _⟩ =>
      if body.truthy then
        match parseResponse p body with
        | .ok content => some content
        | .error _ => none
      else none
    | ⟨.error _, _, _⟩ => none

/-- Calls per provider recorded in a call-count list. -/
def callsIn (cc : List (Provider × Nat)) (q : Provider) : Nat :=
  (cc.map (fun e => if e.1 = q then e.2 else 0)).sum

/-- Test environment: every endpoint always answers HTTP 500. -/
def env500 : Env := fun _ _ _ => .httpError 500 "boom"

/-- Test environment: every endpoint always answers HTTP 429. -/
def env429 : Env := fun _ _ _ => .httpError 429 "rate"

/-- Test environment: every endpoint answers 200 with JSON body `null`. -/
def envNull : Env := fun _ _ _ => .ok Json.null

/-- A well-formed OpenAI-shape response body with content "ok". -/
def okBody : Json :=
  Json.obj [("choices",
    Json.arr [Json.obj [("message", Json.obj [("content", Json.str "ok")])]])]

/-- Test environment: every endpoint answers 200 with `okBody`. -/
def envOk : Env := fun _ _ _ => .ok okBody

/-- Zero jitter oracle. -/
def jitter0 : Nat → Nat := fun _ => 0

/-- Credential map with only the cerebras key configured. -/
def keysCerebras : ApiKeys := ⟨"k", "", "", "", "", "", ""⟩

/-- Credential map with every entry empty. -/
def keysNone : ApiKeys := ⟨"", "", "", "", "", "", ""⟩

/-- The error `makeApiCall` throws under `env500` for cerebras. -/
def err500 : JsError :=
  ⟨"API call to cerebras failed with status 500: boom", some 500⟩

/-- The error `makeApiCall` throws under `env429` for cerebras. -/
def err429 : JsError :=
  ⟨"API call to cerebras failed with status 429: rate", some 429⟩

/-- A well-formed OpenAI-shape response body with the given content. -/
def openaiShape (s : String) : Json :=
  Json.obj [("choices",
    Json.arr [Json.obj [("message", Json.obj [("content", Json.str s)])]])]

/-- A well-formed Gemini-shape response body with the given text. -/
def geminiShape (s : String) : Json :=
  Json.obj [("candidates",
    Json.arr [Json.obj [("content",
      Json.obj [("parts", Json.arr [Json.obj [("text", Json.str s)]])])]])]

theorem callsTo_eq_callsIn (o : ChatOutcome) (q : Provider) :
    callsTo o q = callsIn o.callCounts q := rfl

theorem callsIn_cons (p : Provider) (n : Nat) (cc : List (Provider × Nat)) (q : Provider) :
    callsIn ((p, n) :: cc) q = (if p = q then n else 0) + callsIn cc q := by
  simp [callsIn]

theorem callsIn_eq_zero (cc : List (Provider × Nat)) (q : Provider)
    (h : ∀ e ∈ cc, e.1 ≠ q) : callsIn cc q = 0 := by
  refine List.sum_eq_zero ?_
  intro x hx
  rcases List.mem_map.mp hx with ⟨e, he, rfl⟩
  simp [h e he]

theorem chatGo_cons_skip (env : Env) (jitter : Nat → Nat) (keys : ApiKeys)
    (messages : List ChatMessage) (p : Provider) (rest : List Provider)
    (hk : keys.get p = "") :
    chatGo env jitter keys messages (p :: rest) = chatGo env jitter keys messages rest := by
  rw [chatGo.eq_2, if_pos hk]

theorem providerYields_key (env : Env) (jitter : Nat → Nat) (keys : ApiKeys)
    (messages : List ChatMessage) (p : Provider) (c : Json)
    (h : providerYields env jitter keys messages p = some c) :
    keys.get p ≠ "" := by
  intro hk
  unfold providerYields at h
  rw [if_pos hk] at h
  cases h

theorem chatGo_cons_none (env : Env) (jitter : Nat → Nat) (keys : ApiKeys)
    (messages : List ChatMessage) (p : Provider) (rest : List Provider)
    (h : providerYields env jitter keys messages p = none) :
    (chatGo env jitter keys messages (p :: rest)).result =
      (chatGo env jitter keys messages rest).result ∧
    ((chatGo env jitter keys messages (p :: rest)).callCounts =
       (chatGo env jitter keys messages rest).callCounts ∨
     (keys.get p ≠ "" ∧
      ∃ n, (chatGo env jitter keys messages (p :: rest)).callCounts =
        (p, n) :: (chatGo env jitter keys messages rest).callCounts)) := by
  unfold providerYields at h
  by_cases hk : keys.get p = ""
  · rw [chatGo_cons_skip env jitter keys messages p rest hk]
    exact ⟨rfl, Or.inl rfl⟩
  · rw [if_neg hk] at h
    rw [chatGo.eq_2]
    rcases hout : tryProviderWithBackoff env jitter p messages (keys.get p) with
      ⟨res, calls, sleeps⟩
    rw [hout] at h
    simp only [hout, if_neg hk]
    cases res with
    | ok body =>
      simp only [] at h ⊢
      by_cases ht : body.truthy = true
      · rw [if_pos ht] at h ⊢
        cases hp : parseResponse p body with
        | ok c => rw [hp] at h; simp at h
        | error msg => exact ⟨by trivial, Or.inr ⟨hk, calls, by trivial⟩⟩
      · rw [if_neg ht] at h ⊢
        exact ⟨by trivial, Or.inr ⟨hk, calls, by trivial⟩⟩
    | error e =>
      simp only [] at h ⊢
      exact ⟨by trivial, Or.inr ⟨hk, calls, by trivial⟩⟩

theorem chatGo_cons_some (env : Env) (jitter : Nat → Nat) (keys : ApiKeys)
    (messages : List ChatMessage) (p : Provider) (rest : List Provider) (c : Json)
    (h : providerYields env jitter keys messages p = some c) :
    (chatGo env jitter keys messages (p :: rest)).result = .ok ⟨c, p⟩ ∧
    ∃ n, (chatGo env jitter keys messages (p :: rest)).callCounts = [(p, n)] := by
  have hk : ¬ keys.get p = "" := providerYields_key env jitter keys messages p c h
  unfold providerYields at h
  rw [if_neg hk] at h
  rw [chatGo.eq_2]
  rcases hout : tryProviderWithBackoff env jitter p messages (keys.get p) with
    ⟨res, calls, sleeps⟩
  rw [hout] at h
  simp only [hout, if_neg hk]
  cases res with
  | ok body =>
    simp only [] at h ⊢
    by_cases ht : body.truthy = true
    · rw [if_pos ht] at h ⊢
      cases hp : parseResponse p body with
      | ok c' =>
        rw [hp] at h
        simp only [] at h
        cases h
        exact ⟨by trivial, calls, by trivial⟩
      | error msg => rw [hp] at h; simp at h
    · rw [if_neg ht] at h; simp at h
  | error e => simp only [] at h; simp at h

theorem chatGo_append_none (env : Env) (jitter : Nat → Nat) (keys : ApiKeys)
    (messages : List ChatMessage) :
    ∀ (before rest : List Provider),
    (∀ q ∈ before, providerYields env jitter keys messages q = none) →
    (chatGo env jitter keys messages (before ++ rest)).result =
      (chatGo env jitter keys messages rest).result ∧
    ∀ q, q ∉ before →
      callsIn (chatGo env jitter keys messages (before ++ rest)).callCounts q =
        callsIn (chatGo env jitter keys messages rest).callCounts q
  | [], _, _ => ⟨rfl, fun _ _ => rfl⟩
  | b :: before, rest, h => by
    have hb : providerYields env jitter keys messages b = none :=
      h b (List.mem_cons_self b before)
    have ih := chatGo_append_none env jitter keys messages before rest
      (fun q hq => h q (List.mem_cons_of_mem b hq))
    have hc := chatGo_cons_none env jitter keys messages b (before ++ rest) hb
    constructor
    · rw [List.cons_append, hc.1, ih.1]
    · intro q hq
      have hqb : b ≠ q := fun e => hq (e ▸ List.mem_cons_self b before)
      have hqbefore : q ∉ before := fun m => hq (List.mem_cons_of_mem b m)
      rw [List.cons_append]
      rcases hc.2 with hsame | ⟨_, n, hcons⟩
      · rw [hsame, ih.2 q hqbefore]
      · rw [hcons, callsIn_cons, if_neg hqb, ih.2 q hqbefore, Nat.zero_add]

theorem chatGo_all_none (env : Env) (jitter : Nat → Nat) (keys : ApiKeys)
    (messages : List ChatMessage) (l : List Provider)
    (h : ∀ q ∈ l, providerYields env jitter keys messages q = none) :
    (chatGo env jitter keys messages l).result = .error aggregateErrorMessage := by
  have := (chatGo_append_none env jitter keys messages l [] h).1
  rw [List.append_nil] at this
  exact this

theorem chatGo_callCounts_key (env : Env) (jitter : Nat → Nat) (keys : ApiKeys)
    (messages : List ChatMessage) :
    ∀ (l : List Provider), ∀ e ∈ (chatGo env jitter keys messages l).callCounts,
      keys.get e.1 ≠ ""
  | [], e, he => absurd he (List.not_mem_nil e)
  | p :: rest, e, he => by
    have ih := chatGo_callCounts_key env jitter keys messages rest
    cases hy : providerYields env jitter keys messages p with
    | none =>
      rcases (chatGo_cons_none env jitter keys messages p rest hy).2 with
        hsame | ⟨hk, n, hcons⟩
      · rw [hsame] at he
        exact ih e he
      · rw [hcons] at he
        rcases List.mem_cons.mp he with rfl | hmem
        · exact hk
        · exact ih e hmem
    | some c =>
      rcases (chatGo_cons_some env jitter keys messages p rest c hy).2 with ⟨n, hcc⟩
      rw [hcc] at he
      rcases List.mem_singleton.mp he with rfl
      exact providerYields_key env jitter keys messages p c hy

theorem tryProviderGo_calls_le (env : Env) (jitter : Nat → Nat) (p : Provider)
    (messages : List ChatMessage) (key : String) :
    ∀ (fuel attempt : Nat) (lastErr : Option JsError),
      (tryProviderGo env jitter p messages key fuel attempt lastErr).calls ≤ fuel
  | 0, _, _ => Nat.le_refl 0
  | fuel + 1, attempt, lastErr => by
    rw [tryProviderGo.eq_2]
    cases h : makeApiCall env p messages key attempt with
    | ok body => exact Nat.succ_le_succ (Nat.zero_le fuel)
    | error e =>
      simp only []
      by_cases hr : isRetryable e = true
      · rw [if_pos hr]
        exact Nat.succ_le_succ
          (tryProviderGo_calls_le env jitter p messages key fuel (attempt + 1) (some e))
      · rw [if_neg hr]
        exact Nat.succ_le_succ (Nat.zero_le fuel)

theorem tryProviderGo_calls_pos (env : Env) (jitter : Nat → Nat) (p : Provider)
    (messages : List ChatMessage) (key : String) (fuel attempt : Nat)
    (lastErr : Option JsError) (h : 0 < fuel) :
    0 < (tryProviderGo env jitter p messages key fuel attempt lastErr).calls := by
  cases fuel with
  | zero => cases h
  | succ fuel =>
    rw [tryProviderGo.eq_2]
    cases hm : makeApiCall env p messages key attempt with
    | ok body => exact Nat.zero_lt_one
    | error e =>
      simp only []
      by_cases hr : isRetryable e = true
      · rw [if_pos hr]
        exact Nat.succ_pos _
      · rw [if_neg hr]
        exact Nat.zero_lt_one

theorem tryProviderGo_ok (env : Env) (jitter : Nat → Nat) (p : Provider)
    (messages : List ChatMessage) (key : String) (fuel attempt : Nat)
    (lastErr : Option JsError) (body : Json)
    (h : makeApiCall env p messages key attempt = .ok body) :
    tryProviderGo env jitter p messages key (fuel + 1) attempt lastErr =
      ⟨.ok body, 1, []⟩ := by
  rw [tryProviderGo.eq_2, h]

theorem tryProviderGo_retryable (env : Env) (jitter : Nat → Nat) (p : Provider)
    (messages : List ChatMessage) (key : String) (fuel attempt : Nat)
    (lastErr : Option JsError) (e : JsError)
    (h : makeApiCall env p messages key attempt = .error e)
    (hr : isRetryable e = true) :
    tryProviderGo env jitter p messages key (fuel + 1) attempt lastErr =
      ⟨(tryProviderGo env jitter p messages key fuel (attempt + 1) (some e)).result,
       (tryProviderGo env jitter p messages key fuel (attempt + 1) (some e)).calls + 1,
       delayFor jitter attempt ::
         (tryProviderGo env jitter p messages key fuel (attempt + 1) (some e)).sleeps⟩ := by
  rw [tryProviderGo.eq_2, h]
  simp only []
  rw [if_pos hr]

theorem tryProviderGo_fail_fast (env : Env) (jitter : Nat → Nat) (p : Provider)
    (messages : List ChatMessage) (key : String) (fuel attempt : Nat)
    (lastErr : Option JsError) (e : JsError)
    (h : makeApiCall env p messages key attempt = .error e)
    (hr : isRetryable e = false) :
    tryProviderGo env jitter p messages key (fuel + 1) attempt lastErr =
      ⟨.error e, 1, []⟩ := by
  rw [tryProviderGo.eq_2, h]
  simp only []
  rw [if_neg (by simp [hr])]

theorem providerYields_none_of_error (env : Env) (jitter : Nat → Nat) (keys : ApiKeys)
    (messages : List ChatMessage) (p : Provider)
    (h : exceptIsError (tryProviderWithBackoff env jitter p messages (keys.get p)).result
      = true) :
    providerYields env jitter keys messages p = none := by
  unfold providerYields
  by_cases hk : keys.get p = ""
  · rw [if_pos hk]
  · rw [if_neg hk]
    rcases hout : tryProviderWithBackoff env jitter p messages (keys.get p) with
      ⟨res, calls, sleeps⟩
    rw [hout] at h
    cases res with
    | ok body => simp [exceptIsError] at h
    | error e => rfl

theorem providerYields_none_of_falsy (env : Env) (jitter : Nat → Nat) (keys : ApiKeys)
    (messages : List ChatMessage) (p : Provider) (b : Json)
    (hres : (tryProviderWithBackoff env jitter p messages (keys.get p)).result = .ok b)
    (hb : b.truthy = false) :
    providerYields env jitter keys messages p = none := by
  unfold providerYields
  by_cases hk : keys.get p = ""
  · rw [if_pos hk]
  · rw [if_neg hk]
    rcases hout : tryProviderWithBackoff env jitter p messages (keys.get p) with
      ⟨res, calls, sleeps⟩
    rw [hout] at hres
    simp only [] at hres
    subst hres
    simp only []
    rw [if_neg (by simp [hb])]

theorem parseResponse_openai_shape (p : Provider)
    (htype : (PROVIDER_CONFIG p).type = .openaiCompatible) (s : String) :
    parseResponse p (openaiShape s) =
      .ok (if (s != "") = true then Json.str s else Json.str "") := by
  unfold parseResponse
  rw [htype]
  rfl

theorem parseResponse_gemini_shape (p : Provider)
    (htype : (PROVIDER_CONFIG p).type = .geminiNative) (s : String) :
    parseResponse p (geminiShape s) =
      .ok (if (s != "") = true then Json.str s else Json.str "") := by
  unfold parseResponse
  rw [htype]
  rfl

theorem parseOpenAI_missing_choices (fields : List (String × Json))
    (hf : fields.lookup "choices" = none) :
    parseOpenAI (Json.obj fields) = .error () := by
  unfold parseOpenAI
  simp [Json.getProp, Json.getIndex, hf, Bind.bind, Except.bind]

theorem parseGemini_missing_candidates (fields : List (String × Json))
    (hf : fields.lookup "candidates" = none) :
    parseGemini (Json.obj fields) = .error () := by
  unfold parseGemini
  simp [Json.getProp, Json.getIndex, hf, Bind.bind, Except.bind]

theorem parseResponse_openai_missing (p : Provider)
    (htype : (PROVIDER_CONFIG p).type = .openaiCompatible)
    (fields : List (String × Json)) (hf : fields.lookup "choices" = none) :
    parseResponse p (Json.obj fields) = .error (parseErrorMessage p) := by
  unfold parseResponse
  rw [htype, parseOpenAI_missing_choices fields hf]

theorem parseResponse_gemini_missing (p : Provider)
    (htype : (PROVIDER_CONFIG p).type = .geminiNative)
    (fields : List (String × Json)) (hf : fields.lookup "candidates" = none) :
    parseResponse p (Json.obj fields) = .error (parseErrorMessage p) := by
  unfold parseResponse
  rw [htype, parseGemini_missing_candidates fields hf]

/-- C1 (counterexample): the claim "if some provider has a non-empty
credential and its call succeeds within the retry policy, then chat
resolves with that first succeeding provider's normalized content and
identifier" is false as stated: with only cerebras configured and its
endpoint answering 200 with JSON body `null`, the cerebras call succeeds
within the retry policy (the retry policy returns `ok null`), yet `chat`
does not resolve with cerebras — it rejects with the aggregate error,
because the falsy body is skipped. -/
theorem C1_counterexample :
    keysCerebras.get .cerebras = "k" ∧
    (tryProviderWithBackoff envNull jitter0 .cerebras [] "k").result = .ok Json.null ∧
    (chat envNull jitter0 keysCerebras []).result = .error aggregateErrorMessage :=
  ⟨rfl, rfl, rfl⟩

/-- C1 (amended): if some provider in the cascade order has a non-empty
credential and its call succeeds within the retry policy with a truthy
JSON body from which content extraction succeeds, and every earlier
provider yields nothing (skipped, failed, falsy body, or parse failure),
then `chat` resolves with that provider's extracted content and
identifier, and no provider later in the cascade order is invoked. -/
theorem C1_first_success (env : Env) (jitter : Nat → Nat) (keys : ApiKeys)
    (messages : List ChatMessage) (before after : List Provider) (p : Provider) (c : Json)
    (horder : PROVIDER_CASCADE_ORDER = before ++ p :: after)
    (hbefore : ∀ q ∈ before, providerYields env jitter keys messages q = none)
    (hp : providerYields env jitter keys messages p = some c) :
    (chat env jitter keys messages).result = .ok ⟨c, p⟩ ∧
    ∀ q ∈ after, callsTo (chat env jitter keys messages) q = 0 := by
  have hnodup : PROVIDER_CASCADE_ORDER.Nodup := by decide
  rw [horder] at hnodup
  have happ := chatGo_append_none env jitter keys messages before (p :: after) hbefore
  have hcons := chatGo_cons_some env jitter keys messages p after c hp
  have hchat : chat env jitter keys messages =
      chatGo env jitter keys messages (before ++ p :: after) := by
    unfold chat
    rw [horder]
  constructor
  · rw [hchat, happ.1, hcons.1]
  · intro q hq
    rcases List.nodup_append.mp hnodup with ⟨_, hnpa, hdisj⟩
    rcases List.nodup_cons.mp hnpa with ⟨hpa, _⟩
    have hpq : p ≠ q := fun e => hpa (e ▸ hq)
    have hqb : q ∉ before := fun hqb => hdisj hqb (List.mem_cons_of_mem p hq)
    rcases hcons.2 with ⟨n, hcc⟩
    rw [callsTo_eq_callsIn, hchat, happ.2 q hqb, hcc, callsIn_cons, if_neg hpq]
    rfl

/-- C1 witness: with only cerebras configured and its endpoint answering
a well-formed body with content "ok", chat resolves with cerebras and no
later provider is called. -/
theorem C1_witness :
    PROVIDER_CASCADE_ORDER =
      [] ++ Provider.cerebras ::
        [Provider.gemini, .deepseek, .openrouter, .mistral, .together, .groq] ∧
    providerYields envOk jitter0 keysCerebras [] .cerebras = some (Json.str "ok") ∧
    (chat envOk jitter0 keysCerebras []).result = .ok ⟨Json.str "ok", .cerebras⟩ ∧
    ∀ q ∈ [Provider.gemini, .deepseek, .openrouter, .mistral, .together, .groq],
      callsTo (chat envOk jitter0 keysCerebras []) q = 0 := by
  have h := C1_first_success envOk jitter0 keysCerebras [] []
    [Provider.gemini, .deepseek, .openrouter, .mistral, .together, .groq]
    .cerebras (Json.str "ok") rfl (fun q hq => absurd hq (List.not_mem_nil q)) rfl
  exact ⟨rfl, rfl, h.1, h.2⟩

set_option maxRecDepth 4000 in
/-- C2: if every provider in the cascade is either skipped (empty
credential) or fails after its retry policy, then `chat` rejects with
the single fixed aggregate error message, which names no provider; since
the result is exactly that fixed string, no individual provider's error
object reaches the caller. -/
theorem C2_exhaustion (env : Env) (jitter : Nat → Nat) (keys : ApiKeys)
    (messages : List ChatMessage)
    (h : ∀ p ∈ PROVIDER_CASCADE_ORDER, keys.get p = "" ∨
      exceptIsError (tryProviderWithBackoff env jitter p messages (keys.get p)).result
        = true) :
    (chat env jitter keys messages).result = .error aggregateErrorMessage ∧
    ∀ p ∈ PROVIDER_CASCADE_ORDER,
      ¬ (providerName p).toList <:+: aggregateErrorMessage.toList := by
  constructor
  · apply chatGo_all_none
    intro q hq
    rcases h q hq with hk | herr
    · unfold providerYields
      rw [if_pos hk]
    · exact providerYields_none_of_error env jitter keys messages q herr
  · decide

/-- C2 witness: with every credential empty, chat rejects with the
aggregate message. -/
theorem C2_witness :
    (∀ p ∈ PROVIDER_CASCADE_ORDER, keysNone.get p = "" ∨
      exceptIsError (tryProviderWithBackoff env500 jitter0 p [] (keysNone.get p)).result
        = true) ∧
    (chat env500 jitter0 keysNone []).result = .error aggregateErrorMessage :=
  ⟨by decide, (C2_exhaustion env500 jitter0 keysNone [] (by decide)).1⟩

/-- C3: within the retry loop, a failure is classified retryable exactly
when it carries status 429 or a status at least 500 (a failure with no
numeric status is non-retryable); a retryable failure leads to another
attempt while loop iterations remain (strictly more than one call is
made), while a non-retryable failure makes the loop terminate at once
with exactly that error, one call and no sleeps. -/
theorem C3_retry_classification (env : Env) (jitter : Nat → Nat) (p : Provider)
    (messages : List ChatMessage) (key : String) (fuel attempt : Nat)
    (lastErr : Option JsError) (e : JsError)
    (h : makeApiCall env p messages key attempt = .error e) :
    (isRetryable e = true ↔
      e.status = some 429 ∨ ∃ s, e.status = some s ∧ 500 ≤ s) ∧
    (isRetryable e = true →
      1 < (tryProviderGo env jitter p messages key (fuel + 2) attempt lastErr).calls) ∧
    (isRetryable e = false →
      tryProviderGo env jitter p messages key (fuel + 1) attempt lastErr =
        ⟨.error e, 1, []⟩) := by
  refine ⟨?_, ?_, ?_⟩
  · unfold isRetryable
    cases hs : e.status with
    | none => simp
    | some s =>
      simp only [Option.some.injEq, Bool.or_eq_true, beq_iff_eq, decide_eq_true_eq]
      constructor
      · rintro (rfl | h5)
        · exact Or.inl rfl
        · exact Or.inr ⟨s, rfl, h5⟩
      · rintro (rfl | ⟨t, ht, h5⟩)
        · exact Or.inl rfl
        · cases ht
          exact Or.inr h5
  · intro hr
    have step : tryProviderGo env jitter p messages key (fuel + 2) attempt lastErr =
        ⟨(tryProviderGo env jitter p messages key (fuel + 1) (attempt + 1) (some e)).result,
         (tryProviderGo env jitter p messages key (fuel + 1) (attempt + 1) (some e)).calls + 1,
         delayFor jitter attempt ::
           (tryProviderGo env jitter p messages key (fuel + 1) (attempt + 1) (some e)).sleeps⟩ :=
      tryProviderGo_retryable env jitter p messages key (fuel + 1) attempt lastErr e h hr
    rw [step]
    have hpos := tryProviderGo_calls_pos env jitter p messages key (fuel + 1)
      (attempt + 1) (some e) (Nat.succ_pos fuel)
    exact Nat.succ_lt_succ hpos
  · intro hr
    exact tryProviderGo_fail_fast env jitter p messages key fuel attempt lastErr e h hr

/-- C3 witness: a 429 failure is retryable and leads to a second call;
the classification iff holds at this input. -/
theorem C3_witness :
    makeApiCall env429 .cerebras [] "k" 0 = .error err429 ∧
    ((isRetryable err429 = true ↔
        err429.status = some 429 ∨ ∃ s, err429.status = some s ∧ 500 ≤ s) ∧
     (isRetryable err429 = true →
        1 < (tryProviderGo env429 jitter0 .cerebras [] "k" (0 + 2) 0 none).calls) ∧
     (isRetryable err429 = false →
        tryProviderGo env429 jitter0 .cerebras [] "k" (0 + 1) 0 none =
          ⟨.error err429, 1, []⟩)) :=
  ⟨rfl, C3_retry_classification env429 jitter0 .cerebras [] "k" 0 0 none err429 rfl⟩

/-- C4 (counterexample): the claim says that after the final attempt
fails retryably no sleep is performed, so at most `MAX_RETRIES - 1 = 2`
backoff sleeps can occur.  The code, however, sleeps after every
retryable failure including the last one: under an all-500 environment
the retry policy makes 3 calls and performs 3 sleeps
(2000, 4000, 8000 ms with zero jitter) — the third sleep happens after
the final attempt, just before the last error is rethrown. -/
theorem C4_counterexample :
    (tryProviderWithBackoff env500 jitter0 .cerebras [] "k").calls = 3 ∧
    (tryProviderWithBackoff env500 jitter0 .cerebras [] "k").sleeps =
      [2000, 4000, 8000] ∧
    (tryProviderWithBackoff env500 jitter0 .cerebras [] "k").result = .error err500 :=
  ⟨rfl, rfl, rfl⟩

/-- C4 (amended): when every attempt fails retryably, a backoff sleep of
`INITIAL_BACKOFF_MS * 2 ^ attemptIndex + jitter` (jitter in [0,1000))
is performed after every retryable failure — including after the final
attempt — and the policy then falls through with the last error. -/
theorem C4_backoff_schedule (env : Env) (jitter : Nat → Nat) (p : Provider)
    (messages : List ChatMessage) (key : String)
    (hj : ∀ i, jitter i < 1000)
    (h : ∀ i, i < MAX_RETRIES →
      ∃ e, makeApiCall env p messages key i = .error e ∧ isRetryable e = true) :
    (tryProviderWithBackoff env jitter p messages key).sleeps =
      [INITIAL_BACKOFF_MS * 2 ^ 0 + jitter 0,
       INITIAL_BACKOFF_MS * 2 ^ 1 + jitter 1,
       INITIAL_BACKOFF_MS * 2 ^ 2 + jitter 2] ∧
    (∀ d ∈ (tryProviderWithBackoff env jitter p messages key).sleeps,
      ∃ i, i < MAX_RETRIES ∧ INITIAL_BACKOFF_MS * 2 ^ i ≤ d ∧
        d < INITIAL_BACKOFF_MS * 2 ^ i + 1000) ∧
    ∃ e, makeApiCall env p messages key 2 = .error e ∧
      (tryProviderWithBackoff env jitter p messages key).result = .error e := by
  obtain ⟨e0, h0, r0⟩ := h 0 (by decide)
  obtain ⟨e1, h1, r1⟩ := h 1 (by decide)
  obtain ⟨e2, h2, r2⟩ := h 2 (by decide)
  have s0 : tryProviderWithBackoff env jitter p messages key =
      ⟨(tryProviderGo env jitter p messages key 2 1 (some e0)).result,
       (tryProviderGo env jitter p messages key 2 1 (some e0)).calls + 1,
       delayFor jitter 0 :: (tryProviderGo env jitter p messages key 2 1 (some e0)).sleeps⟩ :=
    tryProviderGo_retryable env jitter p messages key 2 0 none e0 h0 r0
  have s1 : tryProviderGo env jitter p messages key 2 1 (some e0) =
      ⟨(tryProviderGo env jitter p messages key 1 2 (some e1)).result,
       (tryProviderGo env jitter p messages key 1 2 (some e1)).calls + 1,
       delayFor jitter 1 :: (tryProviderGo env jitter p messages key 1 2 (some e1)).sleeps⟩ :=
    tryProviderGo_retryable env jitter p messages key 1 1 (some e0) e1 h1 r1
  have s2 : tryProviderGo env jitter p messages key 1 2 (some e1) =
      ⟨(tryProviderGo env jitter p messages key 0 3 (some e2)).result,
       (tryProviderGo env jitter p messages key 0 3 (some e2)).calls + 1,
       delayFor jitter 2 :: (tryProviderGo env jitter p messages key 0 3 (some e2)).sleeps⟩ :=
    tryProviderGo_retryable env jitter p messages key 0 2 (some e1) e2 h2 r2
  have s3 : tryProviderGo env jitter p messages key 0 3 (some e2) =
      ⟨.error e2, 0, []⟩ := rfl
  have hs : (tryProviderWithBackoff env jitter p messages key).sleeps =
      [INITIAL_BACKOFF_MS * 2 ^ 0 + jitter 0,
       INITIAL_BACKOFF_MS * 2 ^ 1 + jitter 1,
       INITIAL_BACKOFF_MS * 2 ^ 2 + jitter 2] := by
    rw [s0, s1, s2, s3]
    rfl
  have hres : (tryProviderWithBackoff env jitter p messages key).result = .error e2 := by
    rw [s0]
    simp only []
    rw [s1]
    simp only []
    rw [s2]
    simp only []
    rw [s3]
  refine ⟨hs, ?_, e2, h2, hres⟩
  intro d hd
  rw [hs] at hd
  simp only [List.mem_cons, List.not_mem_nil, or_false] at hd
  rcases hd with rfl | rfl | rfl
  · exact ⟨0, by decide, Nat.le_add_right _ _, Nat.add_lt_add_left (hj 0) _⟩
  · exact ⟨1, by decide, Nat.le_add_right _ _, Nat.add_lt_add_left (hj 1) _⟩
  · exact ⟨2, by decide, Nat.le_add_right _ _, Nat.add_lt_add_left (hj 2) _⟩

/-- C4 witness: the amended schedule at the all-500 environment with
zero jitter. -/
theorem C4_witness :
    (∀ i, jitter0 i < 1000) ∧
    (∀ i, i < MAX_RETRIES →
      ∃ e, makeApiCall env500 .cerebras [] "k" i = .error e ∧ isRetryable e = true) ∧
    (tryProviderWithBackoff env500 jitter0 .cerebras [] "k").sleeps =
      [INITIAL_BACKOFF_MS * 2 ^ 0 + jitter0 0,
       INITIAL_BACKOFF_MS * 2 ^ 1 + jitter0 1,
       INITIAL_BACKOFF_MS * 2 ^ 2 + jitter0 2] :=
  ⟨fun _ => Nat.succ_pos 999, fun _ _ => ⟨err500, rfl, rfl⟩,
   (C4_backoff_schedule env500 jitter0 .cerebras [] "k" (fun _ => Nat.succ_pos 999)
     (fun _ _ => ⟨err500, rfl, rfl⟩)).1⟩

/-- C5 (counterexample): the claim says that whenever the expected
structure (the first choice's message content) is absent, extraction
fails with a parsing error.  But for an OpenAI-dialect provider a
response whose first choice has no `message` field — the expected
structure is absent and the response is not an empty list — yields the
empty string via optional chaining instead of a parsing error. -/
theorem C5_counterexample :
    parseResponse .cerebras (Json.obj [("choices", Json.arr [Json.obj []])]) =
      .ok (Json.str "") ∧
    parseResponse .cerebras (Json.obj [("choices", Json.arr [Json.obj []])]) ≠
      .error (parseErrorMessage .cerebras) :=
  ⟨rfl, fun h => Except.noConfusion h⟩

/-- C5 (amended): extraction reads the first choice's message content
(bearer-token shape) or the first candidate's first content part's text
(native shape); the extraction fails with a parsing error attributing
the specific provider when the top-level `choices`/`candidates`
structure is absent (where the unguarded index access throws), while
deeper absent fields guarded by optional chaining — and an
empty-but-well-formed `choices`/`candidates` list — yield the empty
string rather than an error. -/
theorem C5_parse_extraction :
    (∀ (p : Provider) (s : String), (PROVIDER_CONFIG p).type = .openaiCompatible →
      s ≠ "" → parseResponse p (openaiShape s) = .ok (Json.str s)) ∧
    (∀ (p : Provider) (s : String), (PROVIDER_CONFIG p).type = .geminiNative →
      s ≠ "" → parseResponse p (geminiShape s) = .ok (Json.str s)) ∧
    (∀ (p : Provider) (fields : List (String × Json)),
      (PROVIDER_CONFIG p).type = .openaiCompatible →
      fields.lookup "choices" = none →
      parseResponse p (Json.obj fields) = .error (parseErrorMessage p)) ∧
    (∀ (p : Provider) (fields : List (String × Json)),
      (PROVIDER_CONFIG p).type = .geminiNative →
      fields.lookup "candidates" = none →
      parseResponse p (Json.obj fields) = .error (parseErrorMessage p)) ∧
    (∀ p : Provider, (PROVIDER_CONFIG p).type = .openaiCompatible →
      parseResponse p (Json.obj [("choices", Json.arr [])]) = .ok (Json.str "")) ∧
    (∀ p : Provider, (PROVIDER_CONFIG p).type = .geminiNative →
      parseResponse p (Json.obj [("candidates", Json.arr [])]) = .ok (Json.str "")) ∧
    (∀ p : Provider, (PROVIDER_CONFIG p).type = .openaiCompatible →
      parseResponse p (Json.obj [("choices", Json.arr [Json.obj []])]) =
        .ok (Json.str "")) := by
  refine ⟨?_, ?_, fun p fields htype hf => parseResponse_openai_missing p htype fields hf,
    fun p fields htype hf => parseResponse_gemini_missing p htype fields hf, ?_, ?_, ?_⟩
  · intro p s htype hs
    rw [parseResponse_openai_shape p htype s, if_pos (bne_iff_ne.mpr hs)]
  · intro p s htype hs
    rw [parseResponse_gemini_shape p htype s, if_pos (bne_iff_ne.mpr hs)]
  · intro p htype
    unfold parseResponse
    rw [htype]
    rfl
  · intro p htype
    unfold parseResponse
    rw [htype]
    rfl
  · intro p htype
    unfold parseResponse
    rw [htype]
    rfl

/-- C5 witness: concrete instances of the amended extraction behaviour
for cerebras (bearer-token shape) and gemini (native shape). -/
theorem C5_witness :
    ((PROVIDER_CONFIG Provider.cerebras).type = .openaiCompatible ∧
     ("hi" : String) ≠ "" ∧
     parseResponse .cerebras (openaiShape "hi") = .ok (Json.str "hi")) ∧
    ((PROVIDER_CONFIG Provider.gemini).type = .geminiNative ∧
     parseResponse .gemini (geminiShape "hi") = .ok (Json.str "hi")) ∧
    parseResponse .cerebras (Json.obj []) = .error (parseErrorMessage .cerebras) ∧
    parseResponse .gemini (Json.obj []) = .error (parseErrorMessage .gemini) ∧
    parseResponse .gemini (Json.obj [("candidates", Json.arr [])]) = .ok (Json.str "") :=
  ⟨⟨rfl, by decide, C5_parse_extraction.1 .cerebras "hi" rfl (by decide)⟩,
   ⟨rfl, C5_parse_extraction.2.1 .gemini "hi" rfl (by decide)⟩,
   C5_parse_extraction.2.2.1 .cerebras [] rfl rfl,
   C5_parse_extraction.2.2.2.1 .gemini [] rfl rfl,
   C5_parse_extraction.2.2.2.2.2.1 .gemini rfl⟩

/-- C6: the retry policy makes at most `MAX_RETRIES = 3` calls for any
provider; when the first two attempts fail retryably and the third
fails (retryably or not), the error surfaced is the third attempt's
(last) error, exactly 3 calls were made, and the cascade controller
treats this as the provider's failure and falls through to the next
provider in the cascade. -/
theorem C6_attempt_ceiling (env : Env) (jitter : Nat → Nat) (p : Provider)
    (messages : List ChatMessage) (keys : ApiKeys) (e0 e1 e2 : JsError)
    (h0 : makeApiCall env p messages (keys.get p) 0 = .error e0)
    (r0 : isRetryable e0 = true)
    (h1 : makeApiCall env p messages (keys.get p) 1 = .error e1)
    (r1 : isRetryable e1 = true)
    (h2 : makeApiCall env p messages (keys.get p) 2 = .error e2) :
    (∀ key : String, (tryProviderWithBackoff env jitter p messages key).calls ≤ MAX_RETRIES) ∧
    (tryProviderWithBackoff env jitter p messages (keys.get p)).result = .error e2 ∧
    (tryProviderWithBackoff env jitter p messages (keys.get p)).calls = 3 ∧
    (keys.get p ≠ "" → ∀ rest : List Provider,
      (chatGo env jitter keys messages (p :: rest)).result =
        (chatGo env jitter keys messages rest).result) := by
  have s0 : tryProviderWithBackoff env jitter p messages (keys.get p) =
      ⟨(tryProviderGo env jitter p messages (keys.get p) 2 1 (some e0)).result,
       (tryProviderGo env jitter p messages (keys.get p) 2 1 (some e0)).calls + 1,
       delayFor jitter 0 ::
         (tryProviderGo env jitter p messages (keys.get p) 2 1 (some e0)).sleeps⟩ :=
    tryProviderGo_retryable env jitter p messages (keys.get p) 2 0 none e0 h0 r0
  have s1 : tryProviderGo env jitter p messages (keys.get p) 2 1 (some e0) =
      ⟨(tryProviderGo env jitter p messages (keys.get p) 1 2 (some e1)).result,
       (tryProviderGo env jitter p messages (keys.get p) 1 2 (some e1)).calls + 1,
       delayFor jitter 1 ::
         (tryProviderGo env jitter p messages (keys.get p) 1 2 (some e1)).sleeps⟩ :=
    tryProviderGo_retryable env jitter p messages (keys.get p) 1 1 (some e0) e1 h1 r1
  have s2 : (tryProviderGo env jitter p messages (keys.get p) 1 2 (some e1)).result =
        .error e2 ∧
      (tryProviderGo env jitter p messages (keys.get p) 1 2 (some e1)).calls = 1 := by
    by_cases hr : isRetryable e2 = true
    · have st : tryProviderGo env jitter p messages (keys.get p) 1 2 (some e1) =
          ⟨(tryProviderGo env jitter p messages (keys.get p) 0 3 (some e2)).result,
           (tryProviderGo env jitter p messages (keys.get p) 0 3 (some e2)).calls + 1,
           delayFor jitter 2 ::
             (tryProviderGo env jitter p messages (keys.get p) 0 3 (some e2)).sleeps⟩ :=
        tryProviderGo_retryable env jitter p messages (keys.get p) 0 2 (some e1) e2 h2 hr
      rw [st]
      exact ⟨rfl, rfl⟩
    · have st : tryProviderGo env jitter p messages (keys.get p) 1 2 (some e1) =
          ⟨.error e2, 1, []⟩ :=
        tryProviderGo_fail_fast env jitter p messages (keys.get p) 0 2 (some e1) e2 h2
          (by simpa using hr)
      rw [st]
      exact ⟨rfl, rfl⟩
  have hres : (tryProviderWithBackoff env jitter p messages (keys.get p)).result =
      .error e2 := by
    rw [s0]
    simp only []
    rw [s1]
    simp only []
    exact s2.1
  refine ⟨?_, hres, ?_, ?_⟩
  · intro key
    exact tryProviderGo_calls_le env jitter p messages key MAX_RETRIES 0 none
  · rw [s0]
    simp only []
    rw [s1]
    simp only []
    rw [s2.2]
  · intro hk rest
    have hnone : providerYields env jitter keys messages p = none := by
      apply providerYields_none_of_error
      rw [hres]
      rfl
    exact (chatGo_cons_none env jitter keys messages p rest hnone).1

/-- C6 witness: under the all-500 environment with only cerebras
configured, the retry policy surfaces the last 500 error after exactly
3 calls, and the cascade moves past cerebras. -/
theorem C6_witness :
    (makeApiCall env500 .cerebras [] (keysCerebras.get .cerebras) 0 = .error err500 ∧
     isRetryable err500 = true ∧
     makeApiCall env500 .cerebras [] (keysCerebras.get .cerebras) 2 = .error err500) ∧
    (tryProviderWithBackoff env500 jitter0 .cerebras [] (keysCerebras.get .cerebras)).result
      = .error err500 ∧
    (tryProviderWithBackoff env500 jitter0 .cerebras [] (keysCerebras.get .cerebras)).calls
      = 3 ∧
    (chatGo env500 jitter0 keysCerebras [] [Provider.cerebras]).result =
      (chatGo env500 jitter0 keysCerebras [] []).result := by
  have h := C6_attempt_ceiling env500 jitter0 .cerebras [] keysCerebras
    err500 err500 err500 rfl rfl rfl rfl rfl
  exact ⟨⟨rfl, rfl, rfl⟩, h.2.1, h.2.2.1,
    h.2.2.2 (by decide) []⟩

/-- C7: for a conversation of N messages sent to the query-string-key
native provider (gemini), the outgoing body's `contents` list has
exactly N entries in order, entry i's role remapped "assistant"→"model"
and otherwise unchanged, the text wrapped as `parts:[{text}]`; the body
carries the generation cap and temperature 0.7 under the
provider-specific field names; the credential appears only as a URL
query parameter and no Authorization header is set. -/
theorem C7_gemini_request (messages : List ChatMessage) (key : String) :
    ∃ contents : List Json,
      (buildRequest .gemini messages key).body =
        Json.obj [("contents", Json.arr contents),
                  ("generationConfig",
                   Json.obj [("maxOutputTokens", Json.num 32768),
                             ("temperature", Json.num (7 / 10))])] ∧
      contents.length = messages.length ∧
      (∀ i : Nat, contents[i]? = (messages[i]?).map (fun m =>
        Json.obj [("role", Json.str (if m.role = .assistant then "model"
                                     else roleString m.role)),
                  ("parts", Json.arr [Json.obj [("text", Json.str m.content)]])])) ∧
      (buildRequest .gemini messages key).url =
        "https://generativelanguage.googleapis.com/v1beta/models/gemini-2.5-flash-lite:generateContent?key="
          ++ key ∧
      (buildRequest .gemini messages key).headers = [("Content-Type", "application/json")] := by
  refine ⟨messages.map (fun m =>
      Json.obj [("role", Json.str (if m.role = .assistant then "model"
                                   else roleString m.role)),
                ("parts", Json.arr [Json.obj [("text", Json.str m.content)]])]),
    ?_, ?_, ?_, ?_, ?_⟩
  · rfl
  · exact List.length_map messages _
  · intro i
    rw [List.getElem?_map]
  · rfl
  · rfl

/-- C8: for a conversation sent to any bearer-token JSON chat
(OpenAI-compatible) provider, the request URL is base concatenated with
endpoint (no query string), the Authorization header carries the
credential as a bearer token, and the body contains the provider's model
identifier, the conversation message-for-message with roles and texts
unchanged, the fixed generation cap 32768 and temperature 0.7. -/
theorem C8_openai_request (p : Provider) (messages : List ChatMessage) (key : String)
    (htype : (PROVIDER_CONFIG p).type = .openaiCompatible) :
    (buildRequest p messages key).url =
      (PROVIDER_CONFIG p).baseURL ++ (PROVIDER_CONFIG p).endpoint ∧
    (buildRequest p messages key).headers =
      [("Content-Type", "application/json"), ("Authorization", "Bearer " ++ key)] ∧
    ∃ msgsJson : List Json,
      (buildRequest p messages key).body = Json.obj [
        ("model", Json.str ((PROVIDER_CONFIG p).model.getD "")),
        ("messages", Json.arr msgsJson),
        ("max_tokens", Json.num 32768),
        ("temperature", Json.num (7 / 10))] ∧
      msgsJson.length = messages.length ∧
      ∀ i : Nat, msgsJson[i]? = (messages[i]?).map (fun m =>
        Json.obj [("role", Json.str (roleString m.role)),
                  ("content", Json.str m.content)]) := by
  unfold buildRequest
  simp only []
  rw [htype]
  simp only []
  refine ⟨?_, ?_, messages.map (fun m =>
      Json.obj [("role", Json.str (roleString m.role)),
                ("content", Json.str m.content)]),
    ?_, ?_, ?_⟩
  · rw [if_neg (by decide), String.append_empty]
  · trivial
  · trivial
  · exact List.length_map messages _
  · intro i
    rw [List.getElem?_map]

/-- C8 witness: the cerebras request for a one-message conversation. -/
theorem C8_witness :
    (PROVIDER_CONFIG Provider.cerebras).type = .openaiCompatible ∧
    (buildRequest .cerebras [⟨.user, "hi"⟩] "k").url =
      "https://api.cerebras.ai/v1" ++ "/chat/completions" ∧
    (buildRequest .cerebras [⟨.user, "hi"⟩] "k").headers =
      [("Content-Type", "application/json"), ("Authorization", "Bearer " ++ "k")] :=
  ⟨rfl, (C8_openai_request .cerebras [⟨.user, "hi"⟩] "k" rfl).1,
   (C8_openai_request .cerebras [⟨.user, "hi"⟩] "k" rfl).2.1⟩

/-- C9: a provider whose credential entry is empty is never called (zero
HTTP calls are made for it) and the cascade proceeds exactly as if it
were not in the list; when every credential is empty, `chat` still
terminates with the aggregate failure rather than crashing. -/
theorem C9_skip_behavior (env : Env) (jitter : Nat → Nat) (keys : ApiKeys)
    (messages : List ChatMessage) (p : Provider) :
    (keys.get p = "" →
      callsTo (chat env jitter keys messages) p = 0 ∧
      ∀ rest : List Provider,
        chatGo env jitter keys messages (p :: rest) =
          chatGo env jitter keys messages rest) ∧
    ((∀ q, keys.get q = "") →
      (chat env jitter keys messages).result = .error aggregateErrorMessage) := by
  constructor
  · intro hk
    constructor
    · rw [callsTo_eq_callsIn]
      apply callsIn_eq_zero
      intro e he hq
      apply chatGo_callCounts_key env jitter keys messages PROVIDER_CASCADE_ORDER e he
      rw [hq]
      exact hk
    · intro rest
      exact chatGo_cons_skip env jitter keys messages p rest hk
  · intro hall
    apply chatGo_all_none
    intro q hq
    unfold providerYields
    rw [if_pos (hall q)]

/-- C9 witness: with every credential empty, cerebras receives zero
calls and chat ends with the aggregate failure. -/
theorem C9_witness :
    (keysNone.get .cerebras = "" ∧
     callsTo (chat env500 jitter0 keysNone []) .cerebras = 0) ∧
    ((∀ q, keysNone.get q = "") ∧
     (chat env500 jitter0 keysNone []).result = .error aggregateErrorMessage) :=
  ⟨⟨rfl, ((C9_skip_behavior env500 jitter0 keysNone [] .cerebras).1 rfl).1⟩,
   ⟨fun q => by cases q <;> rfl,
    (C9_skip_behavior env500 jitter0 keysNone [] .cerebras).2
      (fun q => by cases q <;> rfl)⟩⟩

/-- C10: if a provider's HTTP call returns 2xx but the parsed JSON body
is falsy, `chat` does not return a result for that provider and raises
no error for it: the cascade result is exactly the result of the
remaining providers; if every provider is skipped or behaves this way
(or fails), the call ends with the aggregate failure. -/
theorem C10_falsy_body (env : Env) (jitter : Nat → Nat) (keys : ApiKeys)
    (messages : List ChatMessage) (p : Provider) :
    (∀ (rest : List Provider) (b : Json),
      (tryProviderWithBackoff env jitter p messages (keys.get p)).result = .ok b →
      b.truthy = false →
      (chatGo env jitter keys messages (p :: rest)).result =
        (chatGo env jitter keys messages rest).result) ∧
    ((∀ q ∈ PROVIDER_CASCADE_ORDER, keys.get q = "" ∨
        ∃ b, (tryProviderWithBackoff env jitter q messages (keys.get q)).result = .ok b ∧
          b.truthy = false) →
      (chat env jitter keys messages).result = .error aggregateErrorMessage) := by
  constructor
  · intro rest b hb ht
    exact (chatGo_cons_none env jitter keys messages p rest
      (providerYields_none_of_falsy env jitter keys messages p b hb ht)).1
  · intro h
    apply chatGo_all_none
    intro q hq
    rcases h q hq with hk | ⟨b, hb, ht⟩
    · unfold providerYields
      rw [if_pos hk]
    · exact providerYields_none_of_falsy env jitter keys messages q b hb ht

/-- C10 witness: with only cerebras configured and its endpoint
answering 200 with body `null`, the cascade proceeds past cerebras and
chat ends with the aggregate failure. -/
theorem C10_witness :
    ((tryProviderWithBackoff envNull jitter0 .cerebras [] (keysCerebras.get .cerebras)).result
       = .ok Json.null ∧
     Json.null.truthy = false) ∧
    (chatGo envNull jitter0 keysCerebras [] [Provider.cerebras]).result =
      (chatGo envNull jitter0 keysCerebras [] []).result ∧
    (chat envNull jitter0 keysCerebras []).result = .error aggregateErrorMessage := by
  refine ⟨⟨rfl, rfl⟩, ?_, ?_⟩
  · exact (C10_falsy_body envNull jitter0 keysCerebras [] .cerebras).1 [] Json.null rfl rfl
  · refine (C10_falsy_body envNull jitter0 keysCerebras [] .cerebras).2 ?_
    intro q hq
    cases q with
    | cerebras => exact Or.inr ⟨Json.null, rfl, rfl⟩
    | gemini => exact Or.inl rfl
    | deepseek => exact Or.inl rfl
    | openrouter => exact Or.inl rfl
    | mistral => exact Or.inl rfl
    | together => exact Or.inl rfl
    | groq => exact Or.inl rfl

end AIService
